import Mathlib

/-!
Shallow embedding of the KGV authentication service
(src/security/authentication_service.py) and proofs about its
login state machine, token verification, session lifecycle and
password policy.

Modelling conventions:
- datetimes are integer seconds (Int); every call to datetime.utcnow or
  datetime.now(timezone.utc) inside one request is modelled as the single
  parameter now of that request;
- the SQLAlchemy session is modelled by explicit state passing: a DbState
  value holds the users, sessions and audit-log tables.  authenticate
  returns, next to its external result triple, the durable (committed)
  database state: mutations that the Python code never commits before
  returning (db.close with no db.commit discards them) do not appear in
  the returned state, and _log_audit performs a commit of all pending
  changes, as SQLAlchemy does;
- cryptographic primitives owned by external libraries (argon2, pyotp,
  PyJWT signing) are modelled by injective stand-ins: a hash is the tag
  string argon2$ followed by the password, a signed JWT is its claim set
  plus a signature-validity flag, and the current TOTP code for a secret
  is the tag totp$ followed by the secret.  No claim below depends on
  more than match/mismatch of these values;
- secrets.token_urlsafe and uuid.uuid4 are nondeterministic; the fresh
  session id and the two jti values are extra parameters of authenticate.
-/

namespace KgvAuth

/-- AuthConfig (source lines 52 to 94): recognized options.  The
database and redis connection settings are external-collaborator
configuration and are not part of the modelled state. -/
structure AuthConfig where
  jwt_access_token_expiry : Int
  jwt_refresh_token_expiry : Int
  jwt_issuer : String
  jwt_audience : String
  password_min_length : Nat
  password_require_uppercase : Bool
  password_require_lowercase : Bool
  password_require_numbers : Bool
  password_require_special : Bool
  password_history_count : Nat
  password_expiry_days : Int
  mfa_enabled : Bool
  require_email_verification : Bool
  session_timeout : Int
  session_absolute_timeout : Int
  concurrent_sessions_limit : Nat
  max_login_attempts : Nat
  lockout_duration : Int
  deriving DecidableEq

/-- The documented defaults of AuthConfig (the getenv fallback values). -/
def defaultConfig : AuthConfig where
  jwt_access_token_expiry := 900
  jwt_refresh_token_expiry := 86400
  jwt_issuer := "kgv-auth"
  jwt_audience := "kgv-api"
  password_min_length := 12
  password_require_uppercase := true
  password_require_lowercase := true
  password_require_numbers := true
  password_require_special := true
  password_history_count := 5
  password_expiry_days := 90
  mfa_enabled := true
  require_email_verification := true
  session_timeout := 3600
  session_absolute_timeout := 43200
  concurrent_sessions_limit := 3
  max_login_attempts := 5
  lockout_duration := 900

/-- AuthPermission (source lines 171 to 182): the fields used by token
generation. -/
structure Permission where
  resource : String
  action : String
  deriving DecidableEq

/-- AuthRole (source lines 156 to 168): the fields used by token
generation. -/
structure Role where
  name : String
  permissions : List Permission
  deriving DecidableEq

/-- AuthUser row (source lines 116 to 153). -/
structure AuthUser where
  id : Nat
  uuid : String
  username : String
  email : String
  password_hash : String
  mfa_secret : String
  mfa_enabled : Bool
  email_verified : Bool
  password_changed_at : Int
  must_change_password : Bool
  is_active : Bool
  is_locked : Bool
  locked_until : Option Int
  failed_login_attempts : Nat
  last_failed_login : Option Int
  last_login : Option Int
  last_login_ip : Option String
  roles : List Role
  deriving DecidableEq

/-- Claim set of a JWT.  Keys that a given token kind does not carry
(username, email, roles, permissions on refresh tokens; token_type on
access tokens) are modelled as none or as the empty list. -/
structure TokenClaims where
  sub : String
  username : Option String
  email : Option String
  roles : List String
  permissions : List String
  session_id : String
  token_type : Option String
  iat : Int
  exp : Int
  nbf : Int
  iss : String
  aud : String
  jti : String
  deriving DecidableEq

/-- A signed JWT: its claims plus whether its signature verifies under
the service public key.  jwt.encode with the service private key yields
sigOk true; a forged or tampered token has sigOk false. -/
structure Jwt where
  claims : TokenClaims
  sigOk : Bool
  deriving DecidableEq

/-- AuthSession row (source lines 185 to 208). -/
structure AuthSession where
  session_id : String
  user_id : Nat
  access_token : Jwt
  refresh_token : Jwt
  access_token_expires : Int
  refresh_token_expires : Int
  ip_address : Option String
  user_agent : Option String
  created_at : Int
  last_activity : Int
  expires_at : Int
  is_active : Bool
  deriving DecidableEq

/-- AuthAuditLog row (source lines 211 to 225).  _log_audit never sets
user_agent, and stores details as None when the dict is empty (the
json.dumps call is guarded by Python truthiness of the dict). -/
structure AuditEntry where
  user_id : Option Nat
  event_type : String
  event_status : String
  details : Option (List (String × String))
  ip_address : Option String
  user_agent : Option String
  deriving DecidableEq

/-- The durable store: users, sessions and audit-log tables. -/
structure DbState where
  users : List AuthUser
  sessions : List AuthSession
  audit_logs : List AuditEntry
  deriving DecidableEq

/-- Python truthiness of an optional string argument: None and the empty
string are both falsy. -/
def pyFalsyStr : Option String → Bool
  | none => true
  | some s => s.isEmpty

namespace PasswordManager

/-- Injective stand-in for the argon2 hash (PasswordManager.hash_password,
source lines 253 to 255); the claims below only depend on verification
match or mismatch. -/
def hash_password (password : String) : String := "argon2$" ++ password

/-- PasswordManager.verify_password (source lines 257 to 264), under the
hash model above: the hash verifies exactly for the password it was
produced from. -/
def verify_password (password hash : String) : Bool :=
  hash == hash_password password

/-- The hardcoded denylist of common passwords (source line 289). -/
def commonPasswords : List String :=
  ["password", "123456", "admin", "letmein", "welcome"]

/-- The special-character class of the policy regex (source line 285). -/
def specialChars : List Char :=
  ("!@#$%^&*(),.?\":\x7b\x7d|<>").toList

/-- Checks whether needle occurs at the head of hay. -/
def leadsWith : List Char → List Char → Bool
  | [], _ => true
  | _ :: _, [] => false
  | a :: as, b :: bs => a == b && leadsWith as bs

/-- Substring containment on character lists (the Python in operator on
strings). -/
def hasSub : List Char → List Char → Bool
  | needle, [] => leadsWith needle []
  | needle, h :: t => leadsWith needle (h :: t) || hasSub needle t

/-- ASCII lowercasing of one character (the Python str.lower method on
the ASCII inputs this policy handles). -/
def asciiLower (c : Char) : Char :=
  if decide ('A' ≤ c) && decide (c ≤ 'Z') then Char.ofNat (c.toNat + 32) else c

/-- PasswordManager.validate_password_strength (source lines 266 to 306).
Character classes are the ASCII ranges of the source regexes; the
entropy check counts distinct characters. -/
def validate_password_strength (cfg : AuthConfig) (password : String)
    (username email : Option String) : Bool × List String :=
  let chars := password.toList
  let e1 :=
    if password.length < cfg.password_min_length then
      ["Password must be at least " ++ toString cfg.password_min_length ++ " characters"]
    else []
  let e2 :=
    if cfg.password_require_uppercase
        && !(chars.any (fun c => decide ('A' ≤ c) && decide (c ≤ 'Z'))) then
      ["Password must contain at least one uppercase letter"]
    else []
  let e3 :=
    if cfg.password_require_lowercase
        && !(chars.any (fun c => decide ('a' ≤ c) && decide (c ≤ 'z'))) then
      ["Password must contain at least one lowercase letter"]
    else []
  let e4 :=
    if cfg.password_require_numbers
        && !(chars.any (fun c => decide ('0' ≤ c) && decide (c ≤ '9'))) then
      ["Password must contain at least one number"]
    else []
  let e5 :=
    if cfg.password_require_special
        && !(chars.any (fun c => specialChars.contains c)) then
      ["Password must contain at least one special character"]
    else []
  let lowerPw := chars.map asciiLower
  let e6 :=
    if commonPasswords.any (fun w => w.toList == lowerPw) then
      ["Password is too common"]
    else []
  let e7 :=
    match username with
    | some un =>
        if !un.isEmpty && hasSub (un.toList.map asciiLower) lowerPw then
          ["Password cannot contain username"]
        else []
    | none => []
  let e8 :=
    match email with
    | some em =>
        if !em.isEmpty
            && hasSub ((em.toList.takeWhile (fun c => c != '@')).map asciiLower) lowerPw then
          ["Password cannot contain email address"]
        else []
    | none => []
  let e9 :=
    if chars.eraseDups.length < 5 then
      ["Password lacks sufficient character variety"]
    else []
  let errors := e1 ++ e2 ++ e3 ++ e4 ++ e5 ++ e6 ++ e7 ++ e8 ++ e9
  (errors.isEmpty, errors)

end PasswordManager

namespace JWTManager

/-- JWTManager.generate_access_token (source lines 348 to 382).  The
permission strings are the deduplicated union over all roles (the Python
list(set(..)) is modelled by eraseDups, a deterministic choice of the
unspecified set order). -/
def generate_access_token (cfg : AuthConfig) (user : AuthUser)
    (session_id : String) (now : Int) (jti : String) : Jwt :=
  { claims :=
      { sub := user.uuid
        username := some user.username
        email := some user.email
        roles := user.roles.map (fun r => r.name)
        permissions :=
          ((user.roles.flatMap (fun r =>
              r.permissions.map (fun p => p.resource ++ ":" ++ p.action))).eraseDups)
        session_id := session_id
        token_type := none
        iat := now
        exp := now + cfg.jwt_access_token_expiry
        nbf := now
        iss := cfg.jwt_issuer
        aud := cfg.jwt_audience
        jti := jti }
    sigOk := true }

/-- JWTManager.generate_refresh_token (source lines 384 to 407). -/
def generate_refresh_token (cfg : AuthConfig) (user : AuthUser)
    (session_id : String) (now : Int) (jti : String) : Jwt :=
  { claims :=
      { sub := user.uuid
        username := none
        email := none
        roles := []
        permissions := []
        session_id := session_id
        token_type := some "refresh"
        iat := now
        exp := now + cfg.jwt_refresh_token_expiry
        nbf := now
        iss := cfg.jwt_issuer
        aud := cfg.jwt_audience
        jti := jti }
    sigOk := true }

/-- The jwt.decode call of verify_token: signature, audience, issuer,
not-before and expiry checks; PyJWT treats exp as elapsed when
exp is at most now and nbf as violated when nbf exceeds now.  Every
failure raises, which verify_token maps to none. -/
def jwtDecode (cfg : AuthConfig) (t : Jwt) (now : Int) : Option TokenClaims :=
  if t.sigOk && (t.claims.aud == cfg.jwt_audience) && (t.claims.iss == cfg.jwt_issuer)
      && decide (t.claims.nbf ≤ now) && decide (now < t.claims.exp) then
    some t.claims
  else none

/-- JWTManager.verify_token (source lines 409 to 429).  The token-type
marker is checked only when the expected type is refresh. -/
def verify_token (cfg : AuthConfig) (t : Jwt) (token_type : String)
    (now : Int) : Option TokenClaims :=
  match jwtDecode cfg t now with
  | none => none
  | some claims =>
      if token_type == "refresh" && !(claims.token_type == some "refresh") then
        none
      else some claims

end JWTManager

namespace MFAManager

/-- Stand-in for the current TOTP code of a secret (pyotp is an external
collaborator; no claim below depends on the time-step window, only on
match or mismatch of the supplied code). -/
def totpNow (secret : String) : String := "totp$" ++ secret

/-- MFAManager.verify_token (source lines 465 to 469) under the TOTP
model above. -/
def verify_token (secret token : String) : Bool :=
  token == totpNow secret

end MFAManager

namespace AuthenticationService

/-- The user lookup of authenticate (source lines 565 to 567): first row
whose username or email equals the supplied identifier. -/
def findUser (db : DbState) (ident : String) : Option AuthUser :=
  db.users.find? (fun u => u.username == ident || u.email == ident)

/-- Committing a mutated user row: the row with the same primary key is
replaced. -/
def setUser (db : DbState) (u : AuthUser) : DbState :=
  { db with users := db.users.map (fun v => if v.id == u.id then u else v) }

/-- AuthenticationService._log_audit (source lines 741 to 752): appends
one audit row and commits.  An empty details dict is stored as None. -/
def log_audit (db : DbState) (uid : Option Nat) (etype status : String)
    (details : List (String × String)) (ip : Option String) : DbState :=
  { db with audit_logs := db.audit_logs ++
      [{ user_id := uid
         event_type := etype
         event_status := status
         details := if details.isEmpty then none else some details
         ip_address := ip
         user_agent := none }] }

/-- The lock-window test of authenticate (source line 576): Python
truthiness of locked_until followed by the comparison with now. -/
def lockedFuture : Option Int → Int → Bool
  | some lu, now => decide (now < lu)
  | none, _ => false

/-- The active-session count of authenticate (source lines 637 to 641):
sessions of the user that are active and expire in the future. -/
def activeSessionCount (db : DbState) (uid : Nat) (now : Int) : Nat :=
  (db.sessions.filter
    (fun s => s.user_id == uid && s.is_active && decide (now < s.expires_at))).length

/-- Minimum of a session list by creation time, first occurrence on
ties (the stable order_by of the eviction query). -/
def oldestFrom (b : AuthSession) : List AuthSession → AuthSession
  | [] => b
  | s :: t => oldestFrom (if s.created_at < b.created_at then s else b) t

/-- The eviction query of authenticate (source lines 645 to 648): the
oldest session of the user with is_active true, with no expiry filter. -/
def oldestActive (db : DbState) (uid : Nat) : Option AuthSession :=
  match db.sessions.filter (fun s => s.user_id == uid && s.is_active) with
  | [] => none
  | b :: rest => some (oldestFrom b rest)

/-- The concurrency-limit enforcement of authenticate (source lines 636
to 652): when the count of active unexpired sessions has reached the
limit, the oldest is_active session (expired or not) is marked
inactive. -/
def evictOldestIfAtLimit (cfg : AuthConfig) (db : DbState) (uid : Nat)
    (now : Int) : DbState :=
  if cfg.concurrent_sessions_limit ≤ activeSessionCount db uid now then
    match oldestActive db uid with
    | some old =>
        { db with sessions := db.sessions.map (fun s =>
            if s.session_id == old.session_id then { s with is_active := false } else s) }
    | none => db
  else db

/-- The AuthSession construction of authenticate (source lines 659 to
669). -/
def mkSession (cfg : AuthConfig) (uid : Nat) (sid : String)
    (access refresh : Jwt) (now : Int) (ip ua : Option String) : AuthSession :=
  { session_id := sid
    user_id := uid
    access_token := access
    refresh_token := refresh
    access_token_expires := now + cfg.jwt_access_token_expiry
    refresh_token_expires := now + cfg.jwt_refresh_token_expiry
    ip_address := ip
    user_agent := ua
    created_at := now
    last_activity := now
    expires_at := now + cfg.session_absolute_timeout
    is_active := true }

/-- The password-expiry evaluation of authenticate (source lines 630 to
634): sets must_change_password when the password age in whole days
exceeds the configured window; otherwise the flag keeps its stored
value. -/
def applyPasswordExpiry (cfg : AuthConfig) (u : AuthUser) (now : Int) : AuthUser :=
  { u with must_change_password :=
      if decide (0 < cfg.password_expiry_days)
          && decide (cfg.password_expiry_days < Int.fdiv (now - u.password_changed_at) 86400) then
        true
      else u.must_change_password }

/-- The arguments of authenticate. -/
structure AuthInput where
  username : String
  password : String
  ip_address : Option String
  user_agent : Option String
  mfa_token : Option String
  deriving DecidableEq

/-- The success payload dict of authenticate (source lines 686 to 695). -/
structure AuthSuccess where
  user_id : Nat
  username : String
  email : String
  roles : List String
  access_token : Jwt
  refresh_token : Jwt
  expires_in : Int
  must_change_password : Bool
  deriving DecidableEq

/-- AuthenticationService.authenticate (source lines 558 to 701).
Returns the external result triple and the durable state after the
call.  Branches that return without any db.commit leave the durable
state untouched (their pending mutations are discarded when the
SQLAlchemy session closes); every _log_audit call commits all pending
mutations along with its audit row. -/
def authenticate (cfg : AuthConfig) (db : DbState) (inp : AuthInput)
    (now : Int) (newSessionId jtiAccess jtiRefresh : String) :
    (Bool × String × Option AuthSuccess) × DbState :=
  match findUser db inp.username with
  | none =>
      ((false, "Invalid credentials", none),
        log_audit db none "LOGIN_FAILED" "USER_NOT_FOUND"
          [("username", inp.username)] inp.ip_address)
  | some user0 =>
      if user0.is_locked && lockedFuture user0.locked_until now then
        let remaining := ((user0.locked_until.getD now) - now) % 86400
        ((false, "Account locked. Try again in " ++ toString remaining ++ " seconds", none),
          log_audit db (some user0.id) "LOGIN_FAILED" "ACCOUNT_LOCKED"
            [("remaining_seconds", toString remaining)] inp.ip_address)
      else
        let user :=
          if user0.is_locked then
            { user0 with is_locked := false, locked_until := none, failed_login_attempts := 0 }
          else user0
        if !(PasswordManager.verify_password inp.password user.password_hash) then
          let u1 := { user with failed_login_attempts := user.failed_login_attempts + 1,
                                last_failed_login := some now }
          if cfg.max_login_attempts ≤ u1.failed_login_attempts then
            let u2 := { u1 with is_locked := true,
                                locked_until := some (now + cfg.lockout_duration) }
            ((false, "Account locked due to multiple failed attempts", none),
              log_audit (setUser db u2) (some u2.id) "ACCOUNT_LOCKED" "MAX_ATTEMPTS"
                [("attempts", toString u2.failed_login_attempts)] inp.ip_address)
          else
            ((false, "Invalid credentials", none),
              log_audit (setUser db u1) (some u1.id) "LOGIN_FAILED" "INVALID_PASSWORD"
                [("attempts", toString u1.failed_login_attempts)] inp.ip_address)
        else if !user.is_active then
          ((false, "Account is inactive", none),
            log_audit (setUser db user) (some user.id) "LOGIN_FAILED" "ACCOUNT_INACTIVE"
              [] inp.ip_address)
        else if cfg.require_email_verification && !user.email_verified then
          ((false, "Email not verified", none),
            log_audit (setUser db user) (some user.id) "LOGIN_FAILED" "EMAIL_NOT_VERIFIED"
              [] inp.ip_address)
        else if user.mfa_enabled && pyFalsyStr inp.mfa_token then
          ((false, "MFA token required", none), db)
        else if user.mfa_enabled
            && !(MFAManager.verify_token user.mfa_secret (inp.mfa_token.getD "")) then
          let u1 := { user with failed_login_attempts := user.failed_login_attempts + 1 }
          ((false, "Invalid MFA token", none),
            log_audit (setUser db u1) (some u1.id) "LOGIN_FAILED" "INVALID_MFA"
              [("attempts", toString u1.failed_login_attempts)] inp.ip_address)
        else
          let userP := applyPasswordExpiry cfg user now
          let dbEvict := evictOldestIfAtLimit cfg db userP.id now
          let access := JWTManager.generate_access_token cfg userP newSessionId now jtiAccess
          let refresh := JWTManager.generate_refresh_token cfg userP newSessionId now jtiRefresh
          let newSession := mkSession cfg userP.id newSessionId access refresh now
            inp.ip_address inp.user_agent
          let uF := { userP with last_login := some now,
                                 last_login_ip := inp.ip_address,
                                 failed_login_attempts := 0 }
          let db1 := { dbEvict with sessions := dbEvict.sessions ++ [newSession] }
          let db2 := setUser db1 uF
          let db3 := log_audit db2 (some uF.id) "LOGIN_SUCCESS" "SUCCESS"
            [("session_id", newSessionId)] inp.ip_address
          ((true, "Authentication successful",
            some { user_id := uF.id
                   username := uF.username
                   email := uF.email
                   roles := uF.roles.map (fun r => r.name)
                   access_token := access
                   refresh_token := refresh
                   expires_in := cfg.jwt_access_token_expiry
                   must_change_password := uF.must_change_password }), db3)

end AuthenticationService

/-- n consecutive authenticate calls with one fixed input, threading the
durable state. -/
def iterateAuth (cfg : AuthConfig) (inp : AuthenticationService.AuthInput)
    (now : Int) (sid ja jr : String) : Nat → DbState → DbState
  | 0, db => db
  | n + 1, db =>
      (AuthenticationService.authenticate cfg
        (iterateAuth cfg inp now sid ja jr n db) inp now sid ja jr).2

/-- Sample role for concrete witnesses. -/
def sampleRole : Role :=
  { name := "user", permissions := [{ resource := "applications", action := "read" }] }

/-- Sample user without MFA, used by concrete witnesses and
counterexamples.  The stored hash is the hash of Sup3rSecret!x. -/
def alice : AuthUser :=
  { id := 1
    uuid := "uuid-1"
    username := "alice"
    email := "alice@example.com"
    password_hash := PasswordManager.hash_password "Sup3rSecret!x"
    mfa_secret := "alicesecret"
    mfa_enabled := false
    email_verified := true
    password_changed_at := 0
    must_change_password := false
    is_active := true
    is_locked := false
    locked_until := none
    failed_login_attempts := 0
    last_failed_login := none
    last_login := none
    last_login_ip := none
    roles := [sampleRole] }

/-- Sample user with MFA enabled and four prior failed attempts (one
below the default max_login_attempts). -/
def carol : AuthUser :=
  { alice with
      id := 2
      username := "carol"
      email := "carol@example.com"
      mfa_secret := "carolsecret"
      mfa_enabled := true
      failed_login_attempts := 4 }

/-- Configuration of the C4 counterexample: a session limit of two. -/
def cfg4 : AuthConfig := { defaultConfig with concurrent_sessions_limit := 2 }

/-- A session row of alice for the C4 scenarios. -/
def mkC4Session (sid : String) (ca ea : Int) : AuthSession :=
  { session_id := sid
    user_id := 1
    access_token := JWTManager.generate_access_token defaultConfig alice sid ca "x"
    refresh_token := JWTManager.generate_refresh_token defaultConfig alice sid ca "y"
    access_token_expires := ca + 900
    refresh_token_expires := ca + 86400
    ip_address := none
    user_agent := none
    created_at := ca
    last_activity := ca
    expires_at := ea
    is_active := true }

/-- Store of the C4 counterexample: at time 100, alice holds exactly two
active unexpired sessions (s1, s2) plus one older session s0 that is
still flagged is_active but already expired. -/
def c4Db : DbState :=
  { users := [alice]
    sessions := [mkC4Session "s0" 0 50, mkC4Session "s1" 10 1000, mkC4Session "s2" 20 1000]
    audit_logs := [] }

/-- The successful authenticate call of the C4 counterexample. -/
def c4Out : (Bool × String × Option AuthenticationService.AuthSuccess) × DbState :=
  AuthenticationService.authenticate cfg4 c4Db
    { username := "alice", password := "Sup3rSecret!x", ip_address := none,
      user_agent := none, mfa_token := none }
    100 "snew" "ja" "jr"


/-- Store of the C4 amended-claim witness: alice holds exactly three
(the default limit) active unexpired sessions at time 100. -/
def c4wDb : DbState :=
  { users := [alice]
    sessions := [mkC4Session "t1" 10 1000, mkC4Session "t2" 20 1000, mkC4Session "t3" 30 1000]
    audit_logs := [] }


/-- The missing-MFA-token call of the C6 counterexample. -/
def c6Out : (Bool × String × Option AuthenticationService.AuthSuccess) × DbState :=
  AuthenticationService.authenticate defaultConfig
    { users := [carol], sessions := [], audit_logs := [] }
    { username := "carol", password := "Sup3rSecret!x", ip_address := none,
      user_agent := none, mfa_token := none }
    0 "sid-6" "ja" "jr"


end KgvAuth

/-! ## Theorems -/

namespace KgvAuth

open AuthenticationService

/-- Shape of a jwt.decode result: failure, or exactly the claim set of
the token. -/
theorem jwtDecode_none_or_claims (cfg : AuthConfig) (t : Jwt) (now : Int) :
    JWTManager.jwtDecode cfg t now = none ∨
    JWTManager.jwtDecode cfg t now = some t.claims := by
  unfold JWTManager.jwtDecode
  split
  · right; rfl
  · left; rfl

/-- Claim C1, counterexample: a refresh token issued by
generate_refresh_token, verified with expected type access at its issue
time, does not return invalid; verify_token only enforces the type
marker when the expected type is refresh, so the claim fails on this
input. -/
theorem C1_counterexample :
    JWTManager.verify_token defaultConfig
        (JWTManager.generate_refresh_token defaultConfig alice "sess-1" 0 "jti-1")
        "access" 0
      ≠ none := by decide

/-- Claim C1, amended: an access token issued by generate_access_token
never verifies with expected type refresh (at any verification time),
but a refresh token verified with expected type access before its
expiry returns its claims rather than invalid: only the
access-never-verifies-as-refresh direction holds. -/
theorem C1_amended (cfg : AuthConfig) (u : AuthUser) (sid jti : String) (now t : Int)
    (h1 : now ≤ t) (h2 : t < now + cfg.jwt_refresh_token_expiry) :
    JWTManager.verify_token cfg (JWTManager.generate_access_token cfg u sid now jti)
        "refresh" t = none ∧
    JWTManager.verify_token cfg (JWTManager.generate_refresh_token cfg u sid now jti)
        "access" t
      = some (JWTManager.generate_refresh_token cfg u sid now jti).claims := by
  constructor
  · rcases jwtDecode_none_or_claims cfg (JWTManager.generate_access_token cfg u sid now jti) t
        with hd | hd
    · simp only [JWTManager.verify_token, hd]
    · simp only [JWTManager.verify_token, hd]
      simp [JWTManager.generate_access_token]
  · unfold JWTManager.verify_token JWTManager.jwtDecode JWTManager.generate_refresh_token
    simp [h1, h2]

/-- Witness for C1_amended at a concrete input. -/
theorem C1_amended_witness :
    JWTManager.verify_token defaultConfig
        (JWTManager.generate_access_token defaultConfig alice "sess-1" 0 "jti-1")
        "refresh" 10 = none ∧
    JWTManager.verify_token defaultConfig
        (JWTManager.generate_refresh_token defaultConfig alice "sess-1" 0 "jti-1")
        "access" 10
      = some (JWTManager.generate_refresh_token defaultConfig alice "sess-1" 0 "jti-1").claims :=
  C1_amended defaultConfig alice "sess-1" "jti-1" 0 10 (by decide) (by decide)

/-- Claim C7: verify_token fails closed and uniformly.  An elapsed exp
claim yields invalid regardless of the signature flag; a bad signature,
wrong audience, wrong issuer, immature nbf, and a failed type-marker
check each yield the same invalid result none; and the only two
possible return values are none and the claim set, so the return value
carries no failure reason. -/
theorem C7_fails_closed (cfg : AuthConfig) (t : Jwt) (tt : String) (now : Int) :
    (t.claims.exp ≤ now → JWTManager.verify_token cfg t tt now = none) ∧
    (t.sigOk = false → JWTManager.verify_token cfg t tt now = none) ∧
    (t.claims.aud ≠ cfg.jwt_audience → JWTManager.verify_token cfg t tt now = none) ∧
    (t.claims.iss ≠ cfg.jwt_issuer → JWTManager.verify_token cfg t tt now = none) ∧
    (now < t.claims.nbf → JWTManager.verify_token cfg t tt now = none) ∧
    (tt = "refresh" → t.claims.token_type ≠ some "refresh" →
      JWTManager.verify_token cfg t tt now = none) ∧
    (JWTManager.verify_token cfg t tt now = none ∨
      JWTManager.verify_token cfg t tt now = some t.claims) := by
  refine ⟨?_, ?_, ?_, ?_, ?_, ?_, ?_⟩
  · intro h
    have hx : ¬ (now < t.claims.exp) := not_lt.mpr h
    simp [JWTManager.verify_token, JWTManager.jwtDecode, hx]
  · intro h
    simp [JWTManager.verify_token, JWTManager.jwtDecode, h]
  · intro h
    have hx : (t.claims.aud == cfg.jwt_audience) = false := beq_eq_false_iff_ne.mpr h
    simp [JWTManager.verify_token, JWTManager.jwtDecode, hx]
  · intro h
    have hx : (t.claims.iss == cfg.jwt_issuer) = false := beq_eq_false_iff_ne.mpr h
    simp [JWTManager.verify_token, JWTManager.jwtDecode, hx]
  · intro h
    have hx : ¬ (t.claims.nbf ≤ now) := not_le.mpr h
    simp [JWTManager.verify_token, JWTManager.jwtDecode, hx]
  · intro h1 h2
    subst h1
    have hx : (t.claims.token_type == some "refresh") = false := beq_eq_false_iff_ne.mpr h2
    rcases jwtDecode_none_or_claims cfg t now with hd | hd <;>
      simp [JWTManager.verify_token, hd, hx]
  · rcases jwtDecode_none_or_claims cfg t now with hd | hd
    · left; simp [JWTManager.verify_token, hd]
    · simp only [JWTManager.verify_token, hd]
      split
      · left; rfl
      · right; rfl

/-- Expired but correctly signed sample token for the C7 witness. -/
def c7Expired : Jwt :=
  { claims :=
      { sub := "uuid-1"
        username := none
        email := none
        roles := []
        permissions := []
        session_id := "sess-1"
        token_type := none
        iat := 0
        exp := 500
        nbf := 0
        iss := "kgv-auth"
        aud := "kgv-api"
        jti := "jti-7" }
    sigOk := true }

/-- Witness for C7_fails_closed: a signed token whose exp has elapsed is
invalid. -/
theorem C7_fails_closed_witness :
    JWTManager.verify_token defaultConfig c7Expired "access" 1000 = none :=
  (C7_fails_closed defaultConfig c7Expired "access" 1000).1 (by decide)

/-- Claim C9, counterexample: validate_password_strength on password123
with username jdoe and the default policy (special characters required)
returns not-ok, but its violation list has no common-password finding:
the denylist check is an exact-match lookup and password123 is not in
the denylist. -/
theorem C9_counterexample :
    (PasswordManager.validate_password_strength defaultConfig "password123"
        (some "jdoe") none).1 = false ∧
    ((PasswordManager.validate_password_strength defaultConfig "password123"
        (some "jdoe") none).2.contains "Password is too common") = false ∧
    ((PasswordManager.validate_password_strength defaultConfig "password123"
        (some "jdoe") none).2.contains
          "Password must contain at least one special character") = true := by
  decide

/-- Claim C9, amended: the call returns not-ok and the violations are
exactly the length, uppercase and special-character findings; a
character-class (special character) finding is present but no
common-password finding is, since the denylist holds only the five
exact strings and password123 is not one of them. -/
theorem C9_amended :
    PasswordManager.validate_password_strength defaultConfig "password123"
        (some "jdoe") none
      = (false,
         ["Password must be at least 12 characters",
          "Password must contain at least one uppercase letter",
          "Password must contain at least one special character"]) := by
  decide

/-- Branch shape of authenticate for an unknown identifier (source lines
569 to 572). -/
theorem auth_not_found (cfg : AuthConfig) (db : DbState) (inp : AuthInput)
    (now : Int) (sid ja jr : String)
    (h : findUser db inp.username = none) :
    authenticate cfg db inp now sid ja jr
      = ((false, "Invalid credentials", none),
         log_audit db none "LOGIN_FAILED" "USER_NOT_FOUND"
           [("username", inp.username)] inp.ip_address) := by
  simp only [authenticate, h]

/-- Branch shape of authenticate for a currently locked account (source
lines 575 to 580). -/
theorem auth_locked (cfg : AuthConfig) (db : DbState) (inp : AuthInput)
    (u : AuthUser) (lu now : Int) (sid ja jr : String)
    (hfind : findUser db inp.username = some u)
    (hl : u.is_locked = true)
    (hlu : u.locked_until = some lu)
    (hfut : now < lu) :
    authenticate cfg db inp now sid ja jr
      = ((false,
          "Account locked. Try again in " ++ toString ((lu - now) % 86400) ++ " seconds",
          none),
         log_audit db (some u.id) "LOGIN_FAILED" "ACCOUNT_LOCKED"
           [("remaining_seconds", toString ((lu - now) % 86400))] inp.ip_address) := by
  simp [authenticate, hfind, hl, hlu, lockedFuture, hfut]

/-- Branch shape of authenticate for a wrong password below the lockout
threshold (source lines 588 to 605). -/
theorem auth_wrong_password (cfg : AuthConfig) (db : DbState) (inp : AuthInput)
    (u : AuthUser) (now : Int) (sid ja jr : String)
    (hfind : findUser db inp.username = some u)
    (hlock : u.is_locked = false)
    (hpw : PasswordManager.verify_password inp.password u.password_hash = false)
    (hlt : u.failed_login_attempts + 1 < cfg.max_login_attempts) :
    authenticate cfg db inp now sid ja jr
      = ((false, "Invalid credentials", none),
         log_audit
           (setUser db
             { u with failed_login_attempts := u.failed_login_attempts + 1,
                      last_failed_login := some now })
           (some u.id) "LOGIN_FAILED" "INVALID_PASSWORD"
           [("attempts", toString (u.failed_login_attempts + 1))] inp.ip_address) := by
  have hnle : ¬ (cfg.max_login_attempts ≤ u.failed_login_attempts + 1) := Nat.not_le.mpr hlt
  simp [authenticate, hfind, hlock, hpw, hnle]

/-- Branch shape of authenticate for the wrong password that reaches the
lockout threshold (source lines 592 to 600): the lock transition is part
of the committed state the call returns. -/
theorem auth_wrong_password_locks (cfg : AuthConfig) (db : DbState) (inp : AuthInput)
    (u : AuthUser) (now : Int) (sid ja jr : String)
    (hfind : findUser db inp.username = some u)
    (hlock : u.is_locked = false)
    (hpw : PasswordManager.verify_password inp.password u.password_hash = false)
    (hge : cfg.max_login_attempts ≤ u.failed_login_attempts + 1) :
    authenticate cfg db inp now sid ja jr
      = ((false, "Account locked due to multiple failed attempts", none),
         log_audit
           (setUser db
             { u with failed_login_attempts := u.failed_login_attempts + 1,
                      last_failed_login := some now,
                      is_locked := true,
                      locked_until := some (now + cfg.lockout_duration) })
           (some u.id) "ACCOUNT_LOCKED" "MAX_ATTEMPTS"
           [("attempts", toString (u.failed_login_attempts + 1))] inp.ip_address) := by
  simp [authenticate, hfind, hlock, hpw, hge]

/-- Claim C10: when MFA is enabled, the password verifies and no MFA
token is supplied, authenticate fails with the MFA-required message and
returns the durable state completely unchanged: no counter increment,
no lock transition, no session row, no token pair, and no audit entry
is committed (this branch returns before any db.commit). -/
theorem C10_mfa_required_frame (cfg : AuthConfig) (db : DbState) (inp : AuthInput)
    (u : AuthUser) (now : Int) (sid ja jr : String)
    (hfind : findUser db inp.username = some u)
    (hns : (u.is_locked && lockedFuture u.locked_until now) = false)
    (hpw : PasswordManager.verify_password inp.password u.password_hash = true)
    (hactive : u.is_active = true)
    (hemail : (cfg.require_email_verification && !u.email_verified) = false)
    (hmfa : u.mfa_enabled = true)
    (htok : pyFalsyStr inp.mfa_token = true) :
    authenticate cfg db inp now sid ja jr = ((false, "MFA token required", none), db) := by
  cases hl : u.is_locked
  · simp [authenticate, hfind, hl, hpw, hactive, hemail, hmfa, htok]
  · rw [hl] at hns
    simp only [Bool.true_and] at hns
    simp [authenticate, hfind, hl, hns, hpw, hactive, hemail, hmfa, htok]

/-- Witness for C10_mfa_required_frame: a concrete MFA user with a
correct password and no MFA token. -/
theorem C10_mfa_required_frame_witness :
    authenticate defaultConfig { users := [carol], sessions := [], audit_logs := [] }
        { username := "carol", password := "Sup3rSecret!x", ip_address := none,
          user_agent := none, mfa_token := none }
        0 "sid-10" "ja" "jr"
      = ((false, "MFA token required", none),
         { users := [carol], sessions := [], audit_logs := [] }) :=
  C10_mfa_required_frame defaultConfig
    { users := [carol], sessions := [], audit_logs := [] }
    { username := "carol", password := "Sup3rSecret!x", ip_address := none,
      user_agent := none, mfa_token := none }
    carol 0 "sid-10" "ja" "jr"
    (by decide) (by decide) (by decide) (by decide) (by decide) (by decide) (by decide)

/-- Claim C5, amended: an invalid MFA code after a correct password
increments failed_login_attempts by one and commits it, exactly like a
password mismatch does, but performs no lockout check: is_locked and
locked_until are left unchanged by this branch whatever value the
counter reaches (the threshold comparison exists only in the
password-mismatch branch). -/
theorem C5_mfa_failure_no_lockout (cfg : AuthConfig) (db : DbState) (inp : AuthInput)
    (u : AuthUser) (now : Int) (sid ja jr : String)
    (hfind : findUser db inp.username = some u)
    (hlock : u.is_locked = false)
    (hpw : PasswordManager.verify_password inp.password u.password_hash = true)
    (hactive : u.is_active = true)
    (hemail : (cfg.require_email_verification && !u.email_verified) = false)
    (hmfa : u.mfa_enabled = true)
    (htok : pyFalsyStr inp.mfa_token = false)
    (hbad : MFAManager.verify_token u.mfa_secret (inp.mfa_token.getD "") = false) :
    authenticate cfg db inp now sid ja jr
      = ((false, "Invalid MFA token", none),
         log_audit
           (setUser db { u with failed_login_attempts := u.failed_login_attempts + 1 })
           (some u.id) "LOGIN_FAILED" "INVALID_MFA"
           [("attempts", toString (u.failed_login_attempts + 1))] inp.ip_address) := by
  simp [authenticate, hfind, hlock, hpw, hactive, hemail, hmfa, htok, hbad]

/-- Witness for C5_mfa_failure_no_lockout: carol holds four failed
attempts; the bad MFA code takes the committed counter to the default
max_login_attempts of five, with no lock transition. -/
theorem C5_mfa_failure_no_lockout_witness :
    authenticate defaultConfig { users := [carol], sessions := [], audit_logs := [] }
        { username := "carol", password := "Sup3rSecret!x", ip_address := none,
          user_agent := none, mfa_token := some "wrong-code" }
        0 "sid-5" "ja" "jr"
      = ((false, "Invalid MFA token", none),
         log_audit
           (setUser { users := [carol], sessions := [], audit_logs := [] }
             { carol with failed_login_attempts := 5 })
           (some 2) "LOGIN_FAILED" "INVALID_MFA"
           [("attempts", "5")] none) :=
  C5_mfa_failure_no_lockout defaultConfig
    { users := [carol], sessions := [], audit_logs := [] }
    { username := "carol", password := "Sup3rSecret!x", ip_address := none,
      user_agent := none, mfa_token := some "wrong-code" }
    carol 0 "sid-5" "ja" "jr"
    (by decide) (by decide) (by decide) (by decide) (by decide) (by decide) (by decide)
    (by decide)

/-- Database and call of the C5 counterexample. -/
def c5Out : (Bool × String × Option AuthSuccess) × DbState :=
  authenticate defaultConfig { users := [carol], sessions := [], audit_logs := [] }
    { username := "carol", password := "Sup3rSecret!x", ip_address := none,
      user_agent := none, mfa_token := some "wrong-code" }
    0 "sid-5" "ja" "jr"

/-- Claim C5, counterexample: carol has mfa_enabled, a correct password
and an MFA code that fails verification, with failed_login_attempts at
four, one below the default max_login_attempts of five.  The call takes
the committed counter to five, yet the account is not locked and
locked_until stays unset: the lockout transition of the
password-mismatch path does not occur here, so the handling is not
identical. -/
theorem C5_counterexample :
    defaultConfig.max_login_attempts = 5 ∧
    c5Out.1.1 = false ∧
    c5Out.2.users.map (fun v => v.failed_login_attempts) = [5] ∧
    c5Out.2.users.map (fun v => v.is_locked) = [false] ∧
    c5Out.2.users.map (fun v => v.locked_until) = [none] := by
  decide

/-- Claim C8: an authenticate call with an unknown identifier and one
with a known identifier but wrong password (below the lockout
threshold) return identical external result triples, the generic
invalid-credentials failure, while the audit rows committed by the two
runs differ in user reference, status and payload. -/
theorem C8_enumeration_resistance (cfg : AuthConfig)
    (db1 db2 : DbState) (inp1 inp2 : AuthInput) (u : AuthUser)
    (now1 now2 : Int) (s1 a1 r1 s2 a2 r2 : String)
    (h1 : findUser db1 inp1.username = none)
    (h2 : findUser db2 inp2.username = some u)
    (hlock : u.is_locked = false)
    (hpw : PasswordManager.verify_password inp2.password u.password_hash = false)
    (hlt : u.failed_login_attempts + 1 < cfg.max_login_attempts) :
    (authenticate cfg db1 inp1 now1 s1 a1 r1).1 = (false, "Invalid credentials", none) ∧
    (authenticate cfg db2 inp2 now2 s2 a2 r2).1 = (false, "Invalid credentials", none) ∧
    (authenticate cfg db1 inp1 now1 s1 a1 r1).2.audit_logs
      = db1.audit_logs ++
        [{ user_id := none
           event_type := "LOGIN_FAILED"
           event_status := "USER_NOT_FOUND"
           details := some [("username", inp1.username)]
           ip_address := inp1.ip_address
           user_agent := none }] ∧
    (authenticate cfg db2 inp2 now2 s2 a2 r2).2.audit_logs
      = db2.audit_logs ++
        [{ user_id := some u.id
           event_type := "LOGIN_FAILED"
           event_status := "INVALID_PASSWORD"
           details := some [("attempts", toString (u.failed_login_attempts + 1))]
           ip_address := inp2.ip_address
           user_agent := none }] := by
  rw [auth_not_found cfg db1 inp1 now1 s1 a1 r1 h1,
      auth_wrong_password cfg db2 inp2 u now2 s2 a2 r2 h2 hlock hpw hlt]
  refine ⟨rfl, rfl, ?_, ?_⟩ <;> simp [log_audit, setUser]

/-- Witness for C8_enumeration_resistance: unknown identifier nobody
against alice with a wrong password. -/
theorem C8_enumeration_resistance_witness :
    (authenticate defaultConfig { users := [], sessions := [], audit_logs := [] }
        { username := "nobody", password := "whatever", ip_address := none,
          user_agent := none, mfa_token := none }
        0 "s1" "a1" "r1").1 = (false, "Invalid credentials", none) ∧
    (authenticate defaultConfig { users := [alice], sessions := [], audit_logs := [] }
        { username := "alice", password := "wrong-password", ip_address := none,
          user_agent := none, mfa_token := none }
        7 "s2" "a2" "r2").1 = (false, "Invalid credentials", none) ∧
    (authenticate defaultConfig { users := [], sessions := [], audit_logs := [] }
        { username := "nobody", password := "whatever", ip_address := none,
          user_agent := none, mfa_token := none }
        0 "s1" "a1" "r1").2.audit_logs
      = [] ++
        [{ user_id := none
           event_type := "LOGIN_FAILED"
           event_status := "USER_NOT_FOUND"
           details := some [("username", "nobody")]
           ip_address := none
           user_agent := none }] ∧
    (authenticate defaultConfig { users := [alice], sessions := [], audit_logs := [] }
        { username := "alice", password := "wrong-password", ip_address := none,
          user_agent := none, mfa_token := none }
        7 "s2" "a2" "r2").2.audit_logs
      = [] ++
        [{ user_id := some 1
           event_type := "LOGIN_FAILED"
           event_status := "INVALID_PASSWORD"
           details := some [("attempts", "1")]
           ip_address := none
           user_agent := none }] :=
  C8_enumeration_resistance defaultConfig
    { users := [], sessions := [], audit_logs := [] }
    { users := [alice], sessions := [], audit_logs := [] }
    { username := "nobody", password := "whatever", ip_address := none,
      user_agent := none, mfa_token := none }
    { username := "alice", password := "wrong-password", ip_address := none,
      user_agent := none, mfa_token := none }
    alice 0 7 "s1" "a1" "r1" "s2" "a2" "r2"
    (by decide) (by decide) (by decide) (by decide) (by decide)

/-- The successful authenticate call of the C2 counterexample, under the
documented default configuration. -/
def c2Out : (Bool × String × Option AuthSuccess) × DbState :=
  authenticate defaultConfig { users := [alice], sessions := [], audit_logs := [] }
    { username := "alice", password := "Sup3rSecret!x", ip_address := some "203.0.113.7",
      user_agent := some "cli", mfa_token := none }
    0 "sid-2" "ja-2" "jr-2"

/-- Claim C2, counterexample: under the documented defaults
(jwt_refresh_token_expiry 86400, session_absolute_timeout 43200) a
successful authenticate stores a session whose refresh_token_expires
exceeds expires_at, so the invariant fails at creation time; the
access-token half of the invariant does hold for this session. -/
theorem C2_counterexample :
    c2Out.1.1 = true ∧
    (c2Out.2.sessions.map (fun s => decide (s.refresh_token_expires ≤ s.expires_at)))
      = [false] ∧
    (c2Out.2.sessions.map (fun s => decide (s.access_token_expires ≤ s.expires_at)))
      = [true] := by
  decide

/-- Claim C2, amended: the session stored by a successful authenticate
has access_token_expires, refresh_token_expires and expires_at equal to
now plus the respective configured windows, so it satisfies
access_token_expires at most expires_at and refresh_token_expires at
most expires_at exactly when jwt_access_token_expiry and
jwt_refresh_token_expiry do not exceed session_absolute_timeout.  The
documented defaults satisfy the access inequality (900 vs 43200) but
violate the refresh inequality (86400 vs 43200). -/
theorem C2_amended (cfg : AuthConfig) (db : DbState) (inp : AuthInput)
    (u : AuthUser) (now : Int) (sid ja jr : String)
    (hfind : findUser db inp.username = some u)
    (hns : (u.is_locked && lockedFuture u.locked_until now) = false)
    (hpw : PasswordManager.verify_password inp.password u.password_hash = true)
    (hactive : u.is_active = true)
    (hemail : (cfg.require_email_verification && !u.email_verified) = false)
    (hm1 : (u.mfa_enabled && pyFalsyStr inp.mfa_token) = false)
    (hm2 : (u.mfa_enabled && !(MFAManager.verify_token u.mfa_secret (inp.mfa_token.getD ""))) = false)
    (ha : cfg.jwt_access_token_expiry ≤ cfg.session_absolute_timeout)
    (hr : cfg.jwt_refresh_token_expiry ≤ cfg.session_absolute_timeout) :
    (authenticate cfg db inp now sid ja jr).1.1 = true ∧
    ∀ s, (authenticate cfg db inp now sid ja jr).2.sessions.getLast? = some s →
      s.access_token_expires ≤ s.expires_at ∧ s.refresh_token_expires ≤ s.expires_at := by
  cases hl : u.is_locked
  · constructor
    · simp [authenticate, hfind, hl, hpw, hactive, hemail, hm1, hm2]
    · intro s hs
      simp [authenticate, hfind, hl, hpw, hactive, hemail, hm1, hm2,
        log_audit, setUser] at hs
      subst hs
      constructor <;> simp only [mkSession] <;> omega
  · rw [hl] at hns
    simp only [Bool.true_and] at hns
    constructor
    · simp [authenticate, hfind, hl, hns, hpw, hactive, hemail, hm1, hm2]
    · intro s hs
      simp [authenticate, hfind, hl, hns, hpw, hactive, hemail, hm1, hm2,
        log_audit, setUser] at hs
      subst hs
      constructor <;> simp only [mkSession] <;> omega

/-- Witness for C2_amended: a configuration whose refresh window fits
inside the absolute session window. -/
theorem C2_amended_witness :
    (authenticate { defaultConfig with jwt_refresh_token_expiry := 3600 }
        { users := [alice], sessions := [], audit_logs := [] }
        { username := "alice", password := "Sup3rSecret!x", ip_address := none,
          user_agent := none, mfa_token := none }
        0 "sid-2w" "ja" "jr").1.1 = true ∧
    ∀ s, (authenticate { defaultConfig with jwt_refresh_token_expiry := 3600 }
        { users := [alice], sessions := [], audit_logs := [] }
        { username := "alice", password := "Sup3rSecret!x", ip_address := none,
          user_agent := none, mfa_token := none }
        0 "sid-2w" "ja" "jr").2.sessions.getLast? = some s →
      s.access_token_expires ≤ s.expires_at ∧ s.refresh_token_expires ≤ s.expires_at :=
  C2_amended { defaultConfig with jwt_refresh_token_expiry := 3600 }
    { users := [alice], sessions := [], audit_logs := [] }
    { username := "alice", password := "Sup3rSecret!x", ip_address := none,
      user_agent := none, mfa_token := none }
    alice 0 "sid-2w" "ja" "jr"
    (by decide) (by decide) (by decide) (by decide) (by decide) (by decide) (by decide)
    (by decide) (by decide)

set_option maxRecDepth 8192 in
/-- State evolution of repeated wrong-password attempts below the
lockout threshold: after k such calls the stored user carries k more
failed attempts and is still unlocked, while only the audit log has
grown. -/
theorem iter_wrong_password_progress (cfg : AuthConfig) (inp : AuthInput) (now : Int)
    (sid ja jr : String) :
    ∀ (k : Nat) (u : AuthUser) (sess : List AuthSession) (logs : List AuditEntry),
      (u.username == inp.username || u.email == inp.username) = true →
      u.is_locked = false →
      PasswordManager.verify_password inp.password u.password_hash = false →
      u.failed_login_attempts + k < cfg.max_login_attempts →
      ∃ logs2 lf,
        iterateAuth cfg inp now sid ja jr k
            { users := [u], sessions := sess, audit_logs := logs }
          = { users := [{ u with
                          failed_login_attempts := u.failed_login_attempts + k,
                          last_failed_login := lf }],
              sessions := sess, audit_logs := logs2 } := by
  intro k
  induction k with
  | zero =>
      intro u sess logs hid hlock hpw hk
      exact ⟨logs, u.last_failed_login, by simp [iterateAuth]⟩
  | succ k ih =>
      intro u sess logs hid hlock hpw hk
      obtain ⟨logs2, lf, hstate⟩ := ih u sess logs hid hlock hpw (by omega)
      refine ⟨logs2 ++
        [{ user_id := some u.id
           event_type := "LOGIN_FAILED"
           event_status := "INVALID_PASSWORD"
           details := some [("attempts", toString (u.failed_login_attempts + k + 1))]
           ip_address := inp.ip_address
           user_agent := none }], some now, ?_⟩
      have hunf : iterateAuth cfg inp now sid ja jr (k + 1)
            { users := [u], sessions := sess, audit_logs := logs }
          = (authenticate cfg
              (iterateAuth cfg inp now sid ja jr k
                { users := [u], sessions := sess, audit_logs := logs })
              inp now sid ja jr).2 := rfl
      have hfind : findUser
            { users := [{ u with
                          failed_login_attempts := u.failed_login_attempts + k,
                          last_failed_login := lf }],
              sessions := sess, audit_logs := logs2 } inp.username
          = some { u with
                   failed_login_attempts := u.failed_login_attempts + k,
                   last_failed_login := lf } := by
        simp [findUser, List.find?, hid]
      rw [hunf, hstate,
        auth_wrong_password cfg _ inp _ now sid ja jr hfind hlock hpw
          (by show u.failed_login_attempts + k + 1 < cfg.max_login_attempts; omega)]
      simp [log_audit, setUser, Nat.add_assoc]

set_option maxRecDepth 8192 in
/-- Claim C3: starting from an unlocked account with a clean failure
counter, exactly max_login_attempts consecutive wrong-password calls
leave the committed store with the account locked and locked_until set
to now plus lockout_duration (the locking call commits this before it
returns its failure; the returned store is the committed one), and any
further call, with the correct password included, still fails with the
account-locked message while locked_until lies in the future. -/
theorem C3_lockout_after_max_failures (cfg : AuthConfig) (u : AuthUser)
    (sess : List AuthSession) (logs : List AuditEntry)
    (ident wrongPw rightPw : String) (now : Int) (sid ja jr : String)
    (hid : (u.username == ident || u.email == ident) = true)
    (hlock : u.is_locked = false)
    (hzero : u.failed_login_attempts = 0)
    (hwrong : PasswordManager.verify_password wrongPw u.password_hash = false)
    (hright : PasswordManager.verify_password rightPw u.password_hash = true)
    (hmax : 1 ≤ cfg.max_login_attempts) :
    ∃ logs2,
      iterateAuth cfg ⟨ident, wrongPw, none, none, none⟩ now sid ja jr
          cfg.max_login_attempts { users := [u], sessions := sess, audit_logs := logs }
        = { users := [{ u with
                        failed_login_attempts := cfg.max_login_attempts,
                        last_failed_login := some now,
                        is_locked := true,
                        locked_until := some (now + cfg.lockout_duration) }],
            sessions := sess, audit_logs := logs2 } ∧
      ∀ (t : Int) (sid2 ja2 jr2 : String), t < now + cfg.lockout_duration →
        (authenticate cfg
            { users := [{ u with
                          failed_login_attempts := cfg.max_login_attempts,
                          last_failed_login := some now,
                          is_locked := true,
                          locked_until := some (now + cfg.lockout_duration) }],
              sessions := sess, audit_logs := logs2 }
            ⟨ident, rightPw, none, none, none⟩ t sid2 ja2 jr2).1
          = (false,
             "Account locked. Try again in "
               ++ toString ((now + cfg.lockout_duration - t) % 86400) ++ " seconds",
             none) := by
  obtain ⟨m, hm⟩ : ∃ m, cfg.max_login_attempts = m + 1 :=
    ⟨cfg.max_login_attempts - 1, by omega⟩
  obtain ⟨logs2, lf, hstate⟩ :=
    iter_wrong_password_progress cfg ⟨ident, wrongPw, none, none, none⟩ now sid ja jr
      m u sess logs hid hlock hwrong (by omega)
  have hfind : findUser
        { users := [{ u with
                      failed_login_attempts := u.failed_login_attempts + m,
                      last_failed_login := lf }],
          sessions := sess, audit_logs := logs2 } ident
      = some { u with
               failed_login_attempts := u.failed_login_attempts + m,
               last_failed_login := lf } := by
    simp [findUser, List.find?, hid]
  have hstep := auth_wrong_password_locks cfg
    { users := [{ u with
                  failed_login_attempts := u.failed_login_attempts + m,
                  last_failed_login := lf }],
      sessions := sess, audit_logs := logs2 }
    ⟨ident, wrongPw, none, none, none⟩
    { u with
      failed_login_attempts := u.failed_login_attempts + m,
      last_failed_login := lf }
    now sid ja jr hfind hlock hwrong
    (by show cfg.max_login_attempts ≤ u.failed_login_attempts + m + 1; omega)
  have hunf : iterateAuth cfg ⟨ident, wrongPw, none, none, none⟩ now sid ja jr (m + 1)
        { users := [u], sessions := sess, audit_logs := logs }
      = (authenticate cfg
          (iterateAuth cfg ⟨ident, wrongPw, none, none, none⟩ now sid ja jr m
            { users := [u], sessions := sess, audit_logs := logs })
          ⟨ident, wrongPw, none, none, none⟩ now sid ja jr).2 := rfl
  refine ⟨logs2 ++
    [{ user_id := some u.id
       event_type := "ACCOUNT_LOCKED"
       event_status := "MAX_ATTEMPTS"
       details := some [("attempts", toString (u.failed_login_attempts + m + 1))]
       ip_address := none
       user_agent := none }], ?_, ?_⟩
  · rw [hm, hunf, hstate, hstep]
    simp [log_audit, setUser, hzero, hm]
  · intro t sid2 ja2 jr2 hfut
    have hfind2 : findUser
          { users := [{ u with
                        failed_login_attempts := cfg.max_login_attempts,
                        last_failed_login := some now,
                        is_locked := true,
                        locked_until := some (now + cfg.lockout_duration) }],
            sessions := sess,
            audit_logs := logs2 ++
              [{ user_id := some u.id
                 event_type := "ACCOUNT_LOCKED"
                 event_status := "MAX_ATTEMPTS"
                 details := some [("attempts", toString (u.failed_login_attempts + m + 1))]
                 ip_address := none
                 user_agent := none }] } ident
        = some { u with
                 failed_login_attempts := cfg.max_login_attempts,
                 last_failed_login := some now,
                 is_locked := true,
                 locked_until := some (now + cfg.lockout_duration) } := by
      simp [findUser, List.find?, hid]
    rw [auth_locked cfg _ _ _ (now + cfg.lockout_duration) t sid2 ja2 jr2 hfind2 rfl rfl hfut]

/-- Witness for C3_lockout_after_max_failures: alice under the default
configuration, five wrong passwords at time 100, then a correct-password
attempt at time 150 while locked until 1000. -/
theorem C3_lockout_after_max_failures_witness :
    ∃ logs2,
      iterateAuth defaultConfig ⟨"alice", "wrong-password", none, none, none⟩ 100 "s" "a" "r"
          defaultConfig.max_login_attempts
          { users := [alice], sessions := [], audit_logs := [] }
        = { users := [{ alice with
                        failed_login_attempts := defaultConfig.max_login_attempts,
                        last_failed_login := some 100,
                        is_locked := true,
                        locked_until := some (100 + defaultConfig.lockout_duration) }],
            sessions := [], audit_logs := logs2 } ∧
      ∀ (t : Int) (sid2 ja2 jr2 : String), t < 100 + defaultConfig.lockout_duration →
        (authenticate defaultConfig
            { users := [{ alice with
                          failed_login_attempts := defaultConfig.max_login_attempts,
                          last_failed_login := some 100,
                          is_locked := true,
                          locked_until := some (100 + defaultConfig.lockout_duration) }],
              sessions := [], audit_logs := logs2 }
            ⟨"alice", "Sup3rSecret!x", none, none, none⟩ t sid2 ja2 jr2).1
          = (false,
             "Account locked. Try again in "
               ++ toString ((100 + defaultConfig.lockout_duration - t) % 86400) ++ " seconds",
             none) :=
  C3_lockout_after_max_failures defaultConfig alice [] [] "alice" "wrong-password"
    "Sup3rSecret!x" 100 "s" "a" "r"
    (by decide) (by decide) (by decide) (by decide) (by decide) (by decide)

/-- The id field is untouched by the password-expiry evaluation. -/
theorem applyPasswordExpiry_id (cfg : AuthConfig) (u : AuthUser) (now : Int) :
    (applyPasswordExpiry cfg u now).id = u.id := rfl

/-- The fold of the eviction query returns an element of its input (or
its seed) of minimal creation time. -/
theorem oldestFrom_spec :
    ∀ (l : List AuthSession) (b : AuthSession),
      (oldestFrom b l = b ∨ oldestFrom b l ∈ l) ∧
      (oldestFrom b l).created_at ≤ b.created_at ∧
      ∀ s ∈ l, (oldestFrom b l).created_at ≤ s.created_at := by
  intro l
  induction l with
  | nil => intro b; simp [oldestFrom]
  | cons a t ih =>
      intro b
      by_cases hc : a.created_at < b.created_at
      · obtain ⟨hmem, hle, hall⟩ := ih a
        have hunf : oldestFrom b (a :: t) = oldestFrom a t := by
          simp [oldestFrom, hc]
        refine ⟨?_, ?_, ?_⟩
        · rw [hunf]
          rcases hmem with h | h
          · right; rw [h]; exact List.mem_cons_self a t
          · right; exact List.mem_cons_of_mem a h
        · rw [hunf]; exact le_trans hle (le_of_lt hc)
        · intro s hs
          rw [hunf]
          rcases List.mem_cons.mp hs with h | h
          · rw [h]; exact hle
          · exact hall s h
      · obtain ⟨hmem, hle, hall⟩ := ih b
        have hunf : oldestFrom b (a :: t) = oldestFrom b t := by
          simp [oldestFrom, hc]
        refine ⟨?_, ?_, ?_⟩
        · rw [hunf]
          rcases hmem with h | h
          · left; exact h
          · right; exact List.mem_cons_of_mem a h
        · rw [hunf]; exact hle
        · intro s hs
          rw [hunf]
          rcases List.mem_cons.mp hs with h | h
          · rw [h]; exact le_trans hle (not_lt.mp hc)
          · exact hall s h

/-- The eviction query (oldestActive) returns an is_active session of
the user with minimal creation time among all its is_active sessions. -/
theorem oldestActive_spec (db : DbState) (uid : Nat) (m : AuthSession)
    (h : oldestActive db uid = some m) :
    m ∈ db.sessions ∧ (m.user_id == uid && m.is_active) = true ∧
    ∀ s ∈ db.sessions, (s.user_id == uid && s.is_active) = true →
      m.created_at ≤ s.created_at := by
  unfold oldestActive at h
  rcases hfil : db.sessions.filter (fun s => s.user_id == uid && s.is_active)
    with _ | ⟨b, rest⟩
  · rw [hfil] at h; exact absurd h (by simp)
  · rw [hfil] at h
    rw [Option.some_inj] at h
    obtain ⟨hmem, hle, hall⟩ := oldestFrom_spec rest b
    have hmemf : m ∈ db.sessions.filter (fun s => s.user_id == uid && s.is_active) := by
      rw [hfil, ← h]
      rcases hmem with h2 | h2
      · rw [h2]; exact List.mem_cons_self b rest
      · exact List.mem_cons_of_mem b h2
    refine ⟨(List.mem_filter.mp hmemf).1, (List.mem_filter.mp hmemf).2, ?_⟩
    intro s hs hp
    have hsf : s ∈ db.sessions.filter (fun s => s.user_id == uid && s.is_active) :=
      List.mem_filter.mpr ⟨hs, hp⟩
    rw [hfil] at hsf
    rcases List.mem_cons.mp hsf with h2 | h2
    · rw [h2, ← h]; exact hle
    · rw [← h]; exact hall s h2

/-- When the user has at least one active unexpired session, the
eviction query finds a session to evict. -/
theorem oldestActive_isSome_of_count (db : DbState) (uid : Nat) (now : Int)
    (h : 1 ≤ activeSessionCount db uid now) :
    ∃ m, oldestActive db uid = some m := by
  unfold oldestActive
  rcases hfil : db.sessions.filter (fun s => s.user_id == uid && s.is_active)
    with _ | ⟨b, rest⟩
  · exfalso
    have hbase := List.filter_eq_nil_iff.mp hfil
    have hnil : db.sessions.filter
        (fun s => s.user_id == uid && s.is_active && decide (now < s.expires_at)) = [] := by
      apply List.filter_eq_nil_iff.mpr
      intro s hs hp
      apply hbase s hs
      simp only [Bool.and_eq_true] at hp ⊢
      exact hp.1
    unfold activeSessionCount at h
    rw [hnil] at h
    simp at h
  · rw [hfil]
    exact ⟨oldestFrom b rest, rfl⟩

/-- Deactivating one active unexpired session of the user (identified by
its unique session id) reduces the active unexpired count by exactly
one. -/
theorem filter_length_after_deactivate (uid : Nat) (now : Int) (m : AuthSession) :
    ∀ l : List AuthSession,
      (l.map (fun s => s.session_id)).Nodup →
      m ∈ l →
      (m.user_id == uid && m.is_active && decide (now < m.expires_at)) = true →
      ((l.map (fun s => if s.session_id == m.session_id
            then { s with is_active := false } else s)).filter
          (fun s => s.user_id == uid && s.is_active && decide (now < s.expires_at))).length + 1
        = (l.filter
            (fun s => s.user_id == uid && s.is_active && decide (now < s.expires_at))).length := by
  intro l
  induction l with
  | nil => intro _ hm _; exact absurd hm (List.not_mem_nil m)
  | cons a t ih =>
      intro hnd hm hp
      rw [List.map_cons, List.nodup_cons] at hnd
      obtain ⟨hna, hndt⟩ := hnd
      rcases List.mem_cons.mp hm with he | ht
      · subst he
        have hresta : ∀ s ∈ t, (s.session_id == m.session_id) = false := by
          intro s hs
          apply beq_eq_false_iff_ne.mpr
          intro hcontra
          exact hna (hcontra ▸ List.mem_map_of_mem (fun s => s.session_id) hs)
        have hmapt : t.map (fun s => if s.session_id == m.session_id
            then { s with is_active := false } else s) = t := by
          conv_rhs => rw [← List.map_id t]
          exact List.map_congr_left (fun s hs => by simp [hresta s hs])
        rw [List.map_cons, hmapt, List.filter_cons, List.filter_cons]
        simp [hp] <;> omega
      · have hasid : (a.session_id == m.session_id) = false := by
          apply beq_eq_false_iff_ne.mpr
          intro hcontra
          exact hna (by rw [hcontra]; exact List.mem_map_of_mem (fun s => s.session_id) ht)
        have step := ih hndt ht hp
        rw [List.map_cons, List.filter_cons, List.filter_cons]
        simp only [hasid]
        by_cases hpa : (a.user_id == uid && a.is_active && decide (now < a.expires_at)) = true
        · simp [hpa] at step ⊢ <;> omega
        · simp [hpa] at step ⊢ <;> omega

/-- Claim C4, counterexample: with a limit of two, alice holds exactly
two active unexpired sessions (s1, s2) plus an older expired session s0
that is still flagged is_active.  The successful authenticate evicts s0
(the oldest is_active row, the eviction query has no expiry filter)
rather than the oldest active session s1, and leaves three, not two,
active unexpired sessions. -/
theorem C4_counterexample :
    cfg4.concurrent_sessions_limit = 2 ∧
    activeSessionCount c4Db 1 100 = 2 ∧
    c4Out.1.1 = true ∧
    activeSessionCount c4Out.2 1 100 = 3 ∧
    (c4Out.2.sessions.map (fun s => (s.session_id, s.is_active)))
      = [("s0", false), ("s1", true), ("s2", true), ("snew", true)] := by
  decide

set_option maxRecDepth 8192 in
/-- Claim C4, amended: when every is_active session of the user is also
unexpired (so is_active rows and active sessions coincide) and the user
holds exactly concurrent_sessions_limit (positive) active sessions, a
successful authenticate deactivates exactly the oldest of them by
creation time, appends the new session, and leaves exactly
concurrent_sessions_limit active unexpired sessions.  In general the
eviction query selects the oldest is_active row regardless of expiry,
which is what the counterexample exploits. -/
theorem C4_amended (cfg : AuthConfig) (db : DbState) (inp : AuthInput) (u : AuthUser)
    (now : Int) (sid ja jr : String)
    (hfind : findUser db inp.username = some u)
    (hlock : u.is_locked = false)
    (hpw : PasswordManager.verify_password inp.password u.password_hash = true)
    (hactive : u.is_active = true)
    (hemail : (cfg.require_email_verification && !u.email_verified) = false)
    (hm1 : (u.mfa_enabled && pyFalsyStr inp.mfa_token) = false)
    (hm2 : (u.mfa_enabled && !(MFAManager.verify_token u.mfa_secret (inp.mfa_token.getD ""))) = false)
    (hall : ∀ s ∈ db.sessions, (s.user_id == u.id && s.is_active) = true → now < s.expires_at)
    (hcount : activeSessionCount db u.id now = cfg.concurrent_sessions_limit)
    (hpos : 1 ≤ cfg.concurrent_sessions_limit)
    (habs : 0 < cfg.session_absolute_timeout)
    (hnd : (db.sessions.map (fun s => s.session_id)).Nodup) :
    (authenticate cfg db inp now sid ja jr).1.1 = true ∧
    ∃ m, oldestActive db u.id = some m ∧ m ∈ db.sessions ∧
      (m.user_id == u.id && m.is_active) = true ∧
      (∀ s ∈ db.sessions, (s.user_id == u.id && s.is_active) = true →
        m.created_at ≤ s.created_at) ∧
      (authenticate cfg db inp now sid ja jr).2.sessions
        = db.sessions.map (fun s => if s.session_id == m.session_id
            then { s with is_active := false } else s)
          ++ [mkSession cfg u.id sid
                (JWTManager.generate_access_token cfg (applyPasswordExpiry cfg u now) sid now ja)
                (JWTManager.generate_refresh_token cfg (applyPasswordExpiry cfg u now) sid now jr)
                now inp.ip_address inp.user_agent] ∧
      activeSessionCount (authenticate cfg db inp now sid ja jr).2 u.id now
        = cfg.concurrent_sessions_limit := by
  obtain ⟨m, hm⟩ := oldestActive_isSome_of_count db u.id now (by omega)
  obtain ⟨hmm, hmp, hmin⟩ := oldestActive_spec db u.id m hm
  have hmx : now < m.expires_at := hall m hmm hmp
  have hpm : (m.user_id == u.id && m.is_active && decide (now < m.expires_at)) = true := by
    simp only [Bool.and_eq_true, decide_eq_true_eq] at hmp ⊢
    exact ⟨hmp, hmx⟩
  have hsessions : (authenticate cfg db inp now sid ja jr).2.sessions
      = db.sessions.map (fun s => if s.session_id == m.session_id
          then { s with is_active := false } else s)
        ++ [mkSession cfg u.id sid
              (JWTManager.generate_access_token cfg (applyPasswordExpiry cfg u now) sid now ja)
              (JWTManager.generate_refresh_token cfg (applyPasswordExpiry cfg u now) sid now jr)
              now inp.ip_address inp.user_agent] := by
    simp [authenticate, hfind, hlock, hpw, hactive, hemail, hm1, hm2, log_audit, setUser,
      evictOldestIfAtLimit, applyPasswordExpiry_id, hcount, hm]
  refine ⟨?_, m, hm, hmm, hmp, hmin, hsessions, ?_⟩
  · simp [authenticate, hfind, hlock, hpw, hactive, hemail, hm1, hm2]
  · show ((authenticate cfg db inp now sid ja jr).2.sessions.filter
        (fun s => s.user_id == u.id && s.is_active && decide (now < s.expires_at))).length
      = cfg.concurrent_sessions_limit
    rw [hsessions, List.filter_append]
    have hdeact := filter_length_after_deactivate u.id now m db.sessions hnd hmm hpm
    have hone : (List.filter
        (fun s => s.user_id == u.id && s.is_active && decide (now < s.expires_at))
        [mkSession cfg u.id sid
          (JWTManager.generate_access_token cfg (applyPasswordExpiry cfg u now) sid now ja)
          (JWTManager.generate_refresh_token cfg (applyPasswordExpiry cfg u now) sid now jr)
          now inp.ip_address inp.user_agent]).length = 1 := by
      have hlt : now < now + cfg.session_absolute_timeout := by omega
      simp [mkSession, hlt]
    unfold activeSessionCount at hcount
    rw [List.length_append, hone]
    omega

/-- Witness for C4_amended: alice at the default limit of three with
three active unexpired sessions; the call leaves exactly three active
sessions. -/
theorem C4_amended_witness :
    activeSessionCount
        (authenticate defaultConfig c4wDb
          { username := "alice", password := "Sup3rSecret!x", ip_address := none,
            user_agent := none, mfa_token := none }
          100 "snew" "ja" "jr").2 1 100
      = defaultConfig.concurrent_sessions_limit := by
  obtain ⟨-, m, hm, hmm, hmp, hmin, hsess, hcnt⟩ :=
    C4_amended defaultConfig c4wDb
      { username := "alice", password := "Sup3rSecret!x", ip_address := none,
        user_agent := none, mfa_token := none }
      alice 100 "snew" "ja" "jr"
      (by decide) (by decide) (by decide) (by decide) (by decide) (by decide) (by decide)
      (by decide) (by decide) (by decide) (by decide) (by decide)
  exact hcnt

/-- Eviction never touches the audit-log table. -/
theorem evictOldestIfAtLimit_audit_logs (cfg : AuthConfig) (db : DbState)
    (uid : Nat) (now : Int) :
    (evictOldestIfAtLimit cfg db uid now).audit_logs = db.audit_logs := by
  unfold evictOldestIfAtLimit
  split
  · split <;> rfl
  · rfl

/-- The account-locked message can never coincide with the MFA-required
message, whatever the remaining time reads. -/
theorem locked_msg_ne (r : String) :
    ("Account locked. Try again in " ++ r ++ " seconds") ≠ "MFA token required" := by
  intro h
  have h2 := congrArg String.length h
  rw [String.length_append, String.length_append] at h2
  have e1 : "Account locked. Try again in ".length = 29 := by decide
  have e2 : " seconds".length = 8 := by decide
  have e3 : "MFA token required".length = 18 := by decide
  omega

/-- A Bool that is not true is false. -/
theorem bool_eq_false {b : Bool} (h : ¬(b = true)) : b = false := by
  cases b
  · rfl
  · exact absurd rfl h

/-- Claim C6, amended: every branch of authenticate commits exactly one
audit row, except the missing-MFA-token branch, which commits none: a
run that returns the MFA-required message leaves the audit log exactly
as it was, and every other run appends exactly one entry. -/
theorem C6_audit_per_branch (cfg : AuthConfig) (db : DbState) (inp : AuthInput)
    (now : Int) (sid ja jr : String) :
    ((authenticate cfg db inp now sid ja jr).1.2.1 = "MFA token required" →
      (authenticate cfg db inp now sid ja jr).2.audit_logs = db.audit_logs) ∧
    ((authenticate cfg db inp now sid ja jr).1.2.1 ≠ "MFA token required" →
      ∃ e, (authenticate cfg db inp now sid ja jr).2.audit_logs = db.audit_logs ++ [e]) := by
  rcases hf : findUser db inp.username with _ | u
  · -- unknown identifier
    simp [authenticate, hf, log_audit, setUser, evictOldestIfAtLimit_audit_logs]
    all_goals first
      | exact ⟨_, rfl⟩
      | exact fun h => absurd h (locked_msg_ne _)
      | exact ⟨fun h => absurd h (by decide), fun _ => ⟨_, rfl⟩⟩
      | exact ⟨fun h => absurd h (locked_msg_ne _), fun _ => ⟨_, rfl⟩⟩
  · cases hl : u.is_locked
    case false =>
      by_cases hpw : PasswordManager.verify_password inp.password u.password_hash = true
      · by_cases hact : u.is_active = true
        · by_cases hem : (cfg.require_email_verification && !u.email_verified) = true
          · -- email not verified
            simp [authenticate, hf, hl, hpw, hact, hem, log_audit, setUser, evictOldestIfAtLimit_audit_logs]
            all_goals first
              | exact ⟨_, rfl⟩
              | exact fun h => absurd h (locked_msg_ne _)
              | exact ⟨fun h => absurd h (by decide), fun _ => ⟨_, rfl⟩⟩
              | exact ⟨fun h => absurd h (locked_msg_ne _), fun _ => ⟨_, rfl⟩⟩
          · have hem2 : (cfg.require_email_verification && !u.email_verified) = false :=
              bool_eq_false hem
            by_cases hm1 : (u.mfa_enabled && pyFalsyStr inp.mfa_token) = true
            · -- MFA token missing
              simp [authenticate, hf, hl, hpw, hact, hem2, hm1, log_audit, setUser, evictOldestIfAtLimit_audit_logs]
              all_goals first
                | exact ⟨_, rfl⟩
                | exact fun h => absurd h (locked_msg_ne _)
                | exact ⟨fun h => absurd h (by decide), fun _ => ⟨_, rfl⟩⟩
                | exact ⟨fun h => absurd h (locked_msg_ne _), fun _ => ⟨_, rfl⟩⟩
            · have hm12 : (u.mfa_enabled && pyFalsyStr inp.mfa_token) = false :=
                bool_eq_false hm1
              by_cases hm2 : (u.mfa_enabled
                  && !(MFAManager.verify_token u.mfa_secret (inp.mfa_token.getD ""))) = true
              · -- MFA token invalid
                simp [authenticate, hf, hl, hpw, hact, hem2, hm12, hm2, log_audit, setUser, evictOldestIfAtLimit_audit_logs]
                all_goals first
                  | exact ⟨_, rfl⟩
                  | exact fun h => absurd h (locked_msg_ne _)
                  | exact ⟨fun h => absurd h (by decide), fun _ => ⟨_, rfl⟩⟩
                  | exact ⟨fun h => absurd h (locked_msg_ne _), fun _ => ⟨_, rfl⟩⟩
              · have hm22 : (u.mfa_enabled
                    && !(MFAManager.verify_token u.mfa_secret (inp.mfa_token.getD ""))) = false :=
                  bool_eq_false hm2
                -- success
                simp [authenticate, hf, hl, hpw, hact, hem2, hm12, hm22, log_audit, setUser, evictOldestIfAtLimit_audit_logs]
                all_goals first
                  | exact ⟨_, rfl⟩
                  | exact fun h => absurd h (locked_msg_ne _)
                  | exact ⟨fun h => absurd h (by decide), fun _ => ⟨_, rfl⟩⟩
                  | exact ⟨fun h => absurd h (locked_msg_ne _), fun _ => ⟨_, rfl⟩⟩
        · have hact2 : u.is_active = false := bool_eq_false hact
          -- account inactive
          simp [authenticate, hf, hl, hpw, hact2, log_audit, setUser, evictOldestIfAtLimit_audit_logs]
          all_goals first
            | exact ⟨_, rfl⟩
            | exact fun h => absurd h (locked_msg_ne _)
            | exact ⟨fun h => absurd h (by decide), fun _ => ⟨_, rfl⟩⟩
            | exact ⟨fun h => absurd h (locked_msg_ne _), fun _ => ⟨_, rfl⟩⟩
      · have hpw2 : PasswordManager.verify_password inp.password u.password_hash = false :=
          bool_eq_false hpw
        by_cases hge : cfg.max_login_attempts ≤ u.failed_login_attempts + 1
        · -- wrong password, lockout threshold reached
          simp [authenticate, hf, hl, hpw2, hge, log_audit, setUser, evictOldestIfAtLimit_audit_logs]
          all_goals first
            | exact ⟨_, rfl⟩
            | exact fun h => absurd h (locked_msg_ne _)
            | exact ⟨fun h => absurd h (by decide), fun _ => ⟨_, rfl⟩⟩
            | exact ⟨fun h => absurd h (locked_msg_ne _), fun _ => ⟨_, rfl⟩⟩
        · -- wrong password below the threshold
          simp [authenticate, hf, hl, hpw2, hge, log_audit, setUser, evictOldestIfAtLimit_audit_logs]
          all_goals first
            | exact ⟨_, rfl⟩
            | exact fun h => absurd h (locked_msg_ne _)
            | exact ⟨fun h => absurd h (by decide), fun _ => ⟨_, rfl⟩⟩
            | exact ⟨fun h => absurd h (locked_msg_ne _), fun _ => ⟨_, rfl⟩⟩
    case true =>
      cases hlf : lockedFuture u.locked_until now
      case true =>
        -- account currently locked
        simp [authenticate, hf, hl, hlf, log_audit, setUser, evictOldestIfAtLimit_audit_logs]
        all_goals first
          | exact ⟨_, rfl⟩
          | exact fun h => absurd h (locked_msg_ne _)
          | exact ⟨fun h => absurd h (by decide), fun _ => ⟨_, rfl⟩⟩
          | exact ⟨fun h => absurd h (locked_msg_ne _), fun _ => ⟨_, rfl⟩⟩
      case false =>
        by_cases hpw : PasswordManager.verify_password inp.password u.password_hash = true
        · by_cases hact : u.is_active = true
          · by_cases hem : (cfg.require_email_verification && !u.email_verified) = true
            · -- email not verified
              simp [authenticate, hf, hl, hlf, hpw, hact, hem, log_audit, setUser, evictOldestIfAtLimit_audit_logs]
              all_goals first
                | exact ⟨_, rfl⟩
                | exact fun h => absurd h (locked_msg_ne _)
                | exact ⟨fun h => absurd h (by decide), fun _ => ⟨_, rfl⟩⟩
                | exact ⟨fun h => absurd h (locked_msg_ne _), fun _ => ⟨_, rfl⟩⟩
            · have hem2 : (cfg.require_email_verification && !u.email_verified) = false :=
                bool_eq_false hem
              by_cases hm1 : (u.mfa_enabled && pyFalsyStr inp.mfa_token) = true
              · -- MFA token missing
                simp [authenticate, hf, hl, hlf, hpw, hact, hem2, hm1, log_audit, setUser, evictOldestIfAtLimit_audit_logs]
                all_goals first
                  | exact ⟨_, rfl⟩
                  | exact fun h => absurd h (locked_msg_ne _)
                  | exact ⟨fun h => absurd h (by decide), fun _ => ⟨_, rfl⟩⟩
                  | exact ⟨fun h => absurd h (locked_msg_ne _), fun _ => ⟨_, rfl⟩⟩
              · have hm12 : (u.mfa_enabled && pyFalsyStr inp.mfa_token) = false :=
                  bool_eq_false hm1
                by_cases hm2 : (u.mfa_enabled
                    && !(MFAManager.verify_token u.mfa_secret (inp.mfa_token.getD ""))) = true
                · -- MFA token invalid
                  simp [authenticate, hf, hl, hlf, hpw, hact, hem2, hm12, hm2, log_audit, setUser, evictOldestIfAtLimit_audit_logs]
                  all_goals first
                    | exact ⟨_, rfl⟩
                    | exact fun h => absurd h (locked_msg_ne _)
                    | exact ⟨fun h => absurd h (by decide), fun _ => ⟨_, rfl⟩⟩
                    | exact ⟨fun h => absurd h (locked_msg_ne _), fun _ => ⟨_, rfl⟩⟩
                · have hm22 : (u.mfa_enabled
                      && !(MFAManager.verify_token u.mfa_secret (inp.mfa_token.getD ""))) = false :=
                    bool_eq_false hm2
                  -- success
                  simp [authenticate, hf, hl, hlf, hpw, hact, hem2, hm12, hm22, log_audit, setUser, evictOldestIfAtLimit_audit_logs]
                  all_goals first
                    | exact ⟨_, rfl⟩
                    | exact fun h => absurd h (locked_msg_ne _)
                    | exact ⟨fun h => absurd h (by decide), fun _ => ⟨_, rfl⟩⟩
                    | exact ⟨fun h => absurd h (locked_msg_ne _), fun _ => ⟨_, rfl⟩⟩
          · have hact2 : u.is_active = false := bool_eq_false hact
            -- account inactive
            simp [authenticate, hf, hl, hlf, hpw, hact2, log_audit, setUser, evictOldestIfAtLimit_audit_logs]
            all_goals first
              | exact ⟨_, rfl⟩
              | exact fun h => absurd h (locked_msg_ne _)
              | exact ⟨fun h => absurd h (by decide), fun _ => ⟨_, rfl⟩⟩
              | exact ⟨fun h => absurd h (locked_msg_ne _), fun _ => ⟨_, rfl⟩⟩
        · have hpw2 : PasswordManager.verify_password inp.password u.password_hash = false :=
            bool_eq_false hpw
          by_cases hge : cfg.max_login_attempts ≤ 1
          · -- wrong password, lockout threshold reached
            simp [authenticate, hf, hl, hlf, hpw2, hge, log_audit, setUser, evictOldestIfAtLimit_audit_logs]
            all_goals first
              | exact ⟨_, rfl⟩
              | exact fun h => absurd h (locked_msg_ne _)
              | exact ⟨fun h => absurd h (by decide), fun _ => ⟨_, rfl⟩⟩
              | exact ⟨fun h => absurd h (locked_msg_ne _), fun _ => ⟨_, rfl⟩⟩
          · -- wrong password below the threshold
            simp [authenticate, hf, hl, hlf, hpw2, hge, log_audit, setUser, evictOldestIfAtLimit_audit_logs]
            all_goals first
              | exact ⟨_, rfl⟩
              | exact fun h => absurd h (locked_msg_ne _)
              | exact ⟨fun h => absurd h (by decide), fun _ => ⟨_, rfl⟩⟩
              | exact ⟨fun h => absurd h (locked_msg_ne _), fun _ => ⟨_, rfl⟩⟩

/-- Witness for C6_audit_per_branch: the missing-MFA-token run of carol
commits no audit row at all. -/
theorem C6_audit_per_branch_witness :
    (authenticate defaultConfig { users := [carol], sessions := [], audit_logs := [] }
        { username := "carol", password := "Sup3rSecret!x", ip_address := none,
          user_agent := none, mfa_token := none }
        0 "sid-6" "ja" "jr").2.audit_logs = [] :=
  (C6_audit_per_branch defaultConfig { users := [carol], sessions := [], audit_logs := [] }
      { username := "carol", password := "Sup3rSecret!x", ip_address := none,
        user_agent := none, mfa_token := none }
      0 "sid-6" "ja" "jr").1 (by decide)

/-- Claim C6, counterexample: the missing-MFA-token branch emits no
audit entry: a user with MFA enabled and a correct password but no MFA
code gets a failure while the audit log stays empty, so not every
branch writes exactly one entry. -/
theorem C6_counterexample :
    c6Out.1.1 = false ∧
    c6Out.1.2.1 = "MFA token required" ∧
    c6Out.2.audit_logs.length = 0 := by
  decide

end KgvAuth
